import Mathlib

/-!
Verification of the genomic VCF ETL pipeline
(`src/etl/transform_vcf.py`, `src/etl/load_to_mysql.py`).

Strings from the Python code are modelled as `List Char`; the numeric
conversion functions `int(...)` / `float(...)` of CPython are modelled by
executable recognizers over ASCII text (unicode digits and unicode
whitespace are not modelled; none of the inputs considered here use them).
Floating-point values themselves are never needed by the verified
properties: a value accepted by `float` is retained as its source numeral.
-/

abbrev Str := List Char

/-- The whitespace characters stripped by Python `str.strip()` and by
`int(...)` / `float(...)` (ASCII subset). -/
def isPySpace (c : Char) : Bool :=
  c == ' ' || c == '\t' || c == '\n' || c == '\r' || c == '\x0b' || c == '\x0c'

/-- Python `s.strip()`: remove leading and trailing whitespace. -/
def pyStrip (l : Str) : Str :=
  ((l.dropWhile isPySpace).reverse.dropWhile isPySpace).reverse

/-- Python `s.split(sep)` for a single-character separator: splits on every
occurrence, keeping empty fields; `"".split(sep) == [""]`. -/
def splitOnChar (sep : Char) : Str → List Str
  | [] => [[]]
  | c :: rest =>
    if c == sep then [] :: splitOnChar sep rest
    else
      match splitOnChar sep rest with
      | [] => [[c]]
      | f :: fs => (c :: f) :: fs

/-- Python `line.startswith(p)`. -/
def pyStartswith (l p : Str) : Bool :=
  p.isPrefixOf l

/-- Model of `VCFTransformer._parse_info_field`, which builds (by f-string
interpolation) the regex pattern `field_name=([^;]+)` and runs `re.search`
on the INFO string.  `re.search` tries each start
position from the left; at a position the pattern matches when the literal
text `key=` is a prefix of the remaining input and at least one non-`;`
character follows (the group `[^;]+` captures the maximal run of non-`;`
characters).  All keys the transformer passes (`AF`, `AC`, `AN`, `CLNSIG`,
`CLNDN`, `GENEINFO`) are literal, without regex metacharacters, so the
pattern is this literal search. -/
def searchKV (key : Str) : Str → Option Str
  | [] => none
  | c :: rest =>
    if (key ++ ['=']).isPrefixOf (c :: rest) then
      if ((c :: rest).drop (key.length + 1)).takeWhile (fun ch => ch != ';') = [] then
        searchKV key rest
      else
        some (((c :: rest).drop (key.length + 1)).takeWhile (fun ch => ch != ';'))
    else searchKV key rest

/-- Model of `VCFTransformer._parse_info_field(info_str, field_name)`. -/
def parse_info_field (info_str field_name : Str) : Option Str :=
  searchKV field_name info_str

/-- The captured value of the pattern `key=([^;]+)` at start position `i`
of `info`: the maximal run of non-`;` characters after the `=`. -/
def matchCapture (info key : Str) (i : Nat) : Str :=
  ((info.drop i).drop (key.length + 1)).takeWhile (fun ch => ch != ';')

/-- The pattern `key=([^;]+)` matches at start position `i` of `info`. -/
def matchesAt (info key : Str) (i : Nat) : Prop :=
  (key ++ ['=']).isPrefixOf (info.drop i) = true ∧ matchCapture info key i ≠ []

instance (info key : Str) (i : Nat) : Decidable (matchesAt info key i) := by
  unfold matchesAt; infer_instance

/-- Spec-side notion: `key` occurs in `info` as a whole key at position `i`
(the character before `i`, when there is one, is the pair separator `;`,
and `key=` starts at `i`). -/
def wholeKeyAt (info key : Str) (i : Nat) : Bool :=
  (key ++ ['=']).isPrefixOf (info.drop i) &&
    (i == 0 || info.getD (i - 1) 'x' == ';')

/-- Spec-side notion: `key` occurs somewhere in `info` as a whole key. -/
def wholeKeyPresent (info key : Str) : Bool :=
  (List.range info.length).any (wholeKeyAt info key)

example : parse_info_field ("AF=0.01;AC=2;AN=1000;CLNSIG=5".data) ("AF".data)
    = some ("0.01".data) := by decide

example : parse_info_field ("AF=0.01;AC=2;AN=1000;CLNSIG=5".data) ("DP".data)
    = none := by decide

example : parse_info_field ("GNOMAD_AF=0.5".data) ("AF".data)
    = some ("0.5".data) := by decide

example : wholeKeyPresent ("GNOMAD_AF=0.5".data) ("AF".data) = false := by decide

example : wholeKeyPresent ("AC=2;AF=0.01".data) ("AF".data) = true := by decide

lemma matchesAt_nil (key : Str) (i : Nat) : ¬ matchesAt [] key i := by
  intro h
  have h1 := h.1
  rw [List.drop_nil] at h1
  cases key <;> simp [List.isPrefixOf] at h1

lemma matchesAt_succ (c : Char) (rest key : Str) (i : Nat) :
    matchesAt (c :: rest) key (i + 1) ↔ matchesAt rest key i := by
  simp [matchesAt, matchCapture, List.drop_succ_cons]

lemma matchCapture_succ (c : Char) (rest key : Str) (i : Nat) :
    matchCapture (c :: rest) key (i + 1) = matchCapture rest key i := by
  simp [matchCapture, List.drop_succ_cons]

lemma matchCapture_zero (info key : Str) :
    matchCapture info key 0
      = (info.drop (key.length + 1)).takeWhile (fun ch => ch != ';') := by
  simp [matchCapture]

lemma searchKV_cons (key : Str) (c : Char) (rest : Str) :
    searchKV key (c :: rest) =
      if (key ++ ['=']).isPrefixOf (c :: rest) then
        if matchCapture (c :: rest) key 0 = [] then searchKV key rest
        else some (matchCapture (c :: rest) key 0)
      else searchKV key rest := by
  simp [searchKV, matchCapture]

lemma searchKV_none_iff (key info : Str) :
    searchKV key info = none ↔ ∀ i, ¬ matchesAt info key i := by
  induction info with
  | nil => simpa [searchKV] using fun i => matchesAt_nil key i
  | cons c rest ih =>
    rw [searchKV_cons]
    by_cases hp : (key ++ ['=']).isPrefixOf (c :: rest) = true
    · by_cases hv : matchCapture (c :: rest) key 0 = []
      · rw [if_pos hp, if_pos hv, ih]
        constructor
        · intro h i
          cases i with
          | zero => exact fun hm => hm.2 hv
          | succ j => exact fun hm => h j ((matchesAt_succ c rest key j).mp hm)
        · intro h j hm
          exact h (j + 1) ((matchesAt_succ c rest key j).mpr hm)
      · rw [if_pos hp, if_neg hv]
        constructor
        · intro h; exact absurd h (by simp)
        · intro h; exact absurd ⟨hp, hv⟩ (h 0)
    · rw [if_neg hp]
      rw [ih]
      constructor
      · intro h i
        cases i with
        | zero =>
          intro hm
          have := hm.1
          rw [List.drop_zero] at this
          exact hp this
        | succ j => exact fun hm => h j ((matchesAt_succ c rest key j).mp hm)
      · intro h j hm
        exact h (j + 1) ((matchesAt_succ c rest key j).mpr hm)

lemma searchKV_some_spec (key info v : Str) :
    searchKV key info = some v →
      ∃ i, matchesAt info key i ∧ v = matchCapture info key i ∧
        ∀ j, j < i → ¬ matchesAt info key j := by
  induction info with
  | nil => intro h; simp [searchKV] at h
  | cons c rest ih =>
    rw [searchKV_cons]
    by_cases hp : (key ++ ['=']).isPrefixOf (c :: rest) = true
    · by_cases hv : matchCapture (c :: rest) key 0 = []
      · rw [if_pos hp, if_pos hv]
        intro h
        obtain ⟨i, h1, h2, h3⟩ := ih h
        refine ⟨i + 1, (matchesAt_succ c rest key i).mpr h1,
          (matchCapture_succ c rest key i).symm ▸ h2, ?_⟩
        intro j hj
        cases j with
        | zero => exact fun hm => hm.2 hv
        | succ j' =>
          exact fun hm =>
            h3 j' (Nat.lt_of_succ_lt_succ hj) ((matchesAt_succ c rest key j').mp hm)
      · rw [if_pos hp, if_neg hv]
        intro h
        refine ⟨0, ⟨hp, hv⟩, ?_, ?_⟩
        · exact (Option.some.injEq _ _ ▸ h).symm
        · intro j hj; exact absurd hj (Nat.not_lt_zero j)
    · rw [if_neg hp]
      intro h
      obtain ⟨i, h1, h2, h3⟩ := ih h
      refine ⟨i + 1, (matchesAt_succ c rest key i).mpr h1,
        (matchCapture_succ c rest key i).symm ▸ h2, ?_⟩
      intro j hj
      cases j with
      | zero =>
        intro hm
        have := hm.1
        rw [List.drop_zero] at this
        exact hp this
      | succ j' =>
        exact fun hm =>
          h3 j' (Nat.lt_of_succ_lt_succ hj) ((matchesAt_succ c rest key j').mp hm)

/-- C1 (counterexample to the claim as stated): asking for key `AF` on the
annotation `GNOMAD_AF=0.5`, where `AF` is not present as a whole key,
nevertheless extracts `0.5`, because the unanchored `re.search` also matches
`key=` as a suffix of the longer key `GNOMAD_AF`. -/
theorem parse_info_field_partial_key_cex :
    wholeKeyPresent ("GNOMAD_AF=0.5".data) ("AF".data) = false ∧
      parse_info_field ("GNOMAD_AF=0.5".data) ("AF".data) = some ("0.5".data) := by
  decide

/-- C1 (amended): `parse_info_field` implements leftmost substring matching of
the pattern `key=([^;]+)`: it returns nothing exactly when no position of
the annotation starts with the text `key=` followed by at least one
non-`;` character, and otherwise returns the maximal run of non-`;`
characters following the leftmost such occurrence — which may sit inside a
longer key that ends with the requested key. -/
theorem parse_info_field_leftmost (info_str field_name : Str) :
    (parse_info_field info_str field_name = none ↔
      ∀ i, ¬ matchesAt info_str field_name i) ∧
    ∀ v, parse_info_field info_str field_name = some v →
      ∃ i, matchesAt info_str field_name i ∧ v = matchCapture info_str field_name i ∧
        ∀ j, j < i → ¬ matchesAt info_str field_name j :=
  ⟨searchKV_none_iff field_name info_str,
    fun v h => searchKV_some_spec field_name info_str v h⟩

/-- Witness for C1: instantiating the amended theorem on the annotation
`AF=0.01;AC=2` and key `AF`. -/
theorem parse_info_field_leftmost_witness :
    ∃ i, matchesAt ("AF=0.01;AC=2".data) ("AF".data) i ∧
      ("0.01".data) = matchCapture ("AF=0.01;AC=2".data) ("AF".data) i ∧
      ∀ j, j < i → ¬ matchesAt ("AF=0.01;AC=2".data) ("AF".data) j :=
  (parse_info_field_leftmost ("AF=0.01;AC=2".data) ("AF".data)).2
    ("0.01".data) (by decide)

/-- After a first digit, consume the maximal continuation of a Python
numeric-literal digit run: further digits, or an underscore that is
immediately followed by a digit (`1_000` is legal, `1__0`, `1_` are not).
Returns the unconsumed remainder. -/
def consumeMoreDigits : Str → Str
  | '_' :: c :: rest =>
    if c.isDigit then consumeMoreDigits rest else '_' :: c :: rest
  | c :: rest => if c.isDigit then consumeMoreDigits rest else c :: rest
  | [] => []

/-- Consume a Python digit run (a digit followed by digits and properly
placed underscores).  `none` when the input does not start with a digit. -/
def consumeUDigits : Str → Option Str
  | c :: rest => if c.isDigit then some (consumeMoreDigits rest) else none
  | [] => none

/-- The whole string is one Python digit run. -/
def udigitsAll (l : Str) : Bool :=
  match consumeUDigits l with
  | some [] => true
  | _ => false

def digitsToNat (l : Str) : Nat :=
  l.foldl (fun a c => a * 10 + (c.toNat - 48)) 0

/-- Numeric value of a digit run, ignoring the underscore separators. -/
def pyUnsignedVal (l : Str) : Nat :=
  digitsToNat (l.filter (fun c => c != '_'))

/-- CPython `int(s)` for ASCII text: strip whitespace, optional sign, then a
digit run; any other shape raises `ValueError` (modelled as `none`). -/
def pyInt? (s : Str) : Option Int :=
  match pyStrip s with
  | '+' :: rest => if udigitsAll rest then some (pyUnsignedVal rest) else none
  | '-' :: rest => if udigitsAll rest then some (-(pyUnsignedVal rest : Int)) else none
  | rest => if udigitsAll rest then some (pyUnsignedVal rest) else none

/-- Consume an optional Python digit run; the `Bool` records whether at
least one digit was seen. -/
def consumeOptUDigits : Str → Bool × Str
  | c :: rest =>
    if c.isDigit then (true, consumeMoreDigits rest) else (false, c :: rest)
  | [] => (false, [])

/-- The exponent part of a Python float literal (or the empty remainder). -/
def pyFloatExp : Str → Bool
  | [] => true
  | c :: rest =>
    if c == 'e' || c == 'E' then
      match rest with
      | '+' :: r => udigitsAll r
      | '-' :: r => udigitsAll r
      | r => udigitsAll r
    else false

/-- The mantissa-and-exponent shape of a Python float literal:
`digits [. digits] [exp]` or `[digits] . digits [exp]`. -/
def pyFloatNumeric (t : Str) : Bool :=
  match consumeOptUDigits t with
  | (d1, r1) =>
    match r1 with
    | '.' :: r =>
      match consumeOptUDigits r with
      | (d2, r2) => (d1 || d2) && pyFloatExp r2
    | _ => d1 && pyFloatExp r1

/-- CPython `float(s)` acceptance for ASCII text: strip whitespace, optional
sign, then either (case-insensitively) `inf`/`infinity`/`nan` or a numeric
literal.  Rejected inputs raise `ValueError`. -/
def pyFloatAccepts (s : Str) : Bool :=
  let t :=
    match pyStrip s with
    | '+' :: r => r
    | '-' :: r => r
    | r => r
  let low := t.map Char.toLower
  if low == ("inf".data) || low == ("infinity".data) || low == ("nan".data) then
    true
  else pyFloatNumeric t

example : pyInt? ("100".data) = some 100 := by decide
example : pyInt? (" -42 ".data) = some (-42) := by decide
example : pyInt? ("1_000".data) = some 1000 := by decide
example : pyInt? ("1__0".data) = none := by decide
example : pyInt? ("".data) = none := by decide
example : pyInt? ("5.0".data) = none := by decide
example : pyFloatAccepts ("0.01".data) = true := by decide
example : pyFloatAccepts ("1e-3".data) = true := by decide
example : pyFloatAccepts (".5".data) = true := by decide
example : pyFloatAccepts ("1.".data) = true := by decide
example : pyFloatAccepts ("abc".data) = false := by decide
example : pyFloatAccepts ("1e".data) = false := by decide
example : pyFloatAccepts ("-inf".data) = true := by decide
example : pyFloatAccepts (".".data) = false := by decide

/-- Python `dict.get(k, default)` over the configured code table, which maps
integer clinical-significance codes to canonical strings. -/
def dictGet (m : List (Int × Str)) (k : Int) (d : Str) : Str :=
  match m.find? (fun p => p.1 == k) with
  | some p => p.2
  | none => d

/-- Model of `VCFTransformer._parse_clinical_significance(clnsig_str)`:
`if not clnsig_str: return "Unknown"` (so `None` and the empty string both
yield `"Unknown"`); if the value contains `|`, keep `split('|')[0]`; then
`int(...)` the segment and look it up in the configured mapping with default
`"Unknown"`, and on `ValueError` return the segment as-is. -/
def parse_clinical_significance (mapping : List (Int × Str))
    (clnsig_str : Option Str) : Str :=
  match clnsig_str with
  | none => ("Unknown".data)
  | some s =>
    if s = [] then ("Unknown".data)
    else
      let s1 := if s.contains '|' then s.takeWhile (fun c => c != '|') else s
      match pyInt? s1 with
      | some n => dictGet mapping n ("Unknown".data)
      | none => s1

/-- Example clinical-significance code table.  The real table is external
configuration (`config/etl_config.yml`); the transformer receives it as
`self.clnsig_mapping`.  Values here follow the examples in the spec. -/
def demoClnsigMapping : List (Int × Str) :=
  [(0, ("Uncertain significance".data)), (2, ("Benign".data)),
   (3, ("Likely benign".data)), (4, ("Likely pathogenic".data)),
   (5, ("Pathogenic".data)), (6, ("Drug response".data))]

example : parse_clinical_significance demoClnsigMapping (some ("5".data))
    = ("Pathogenic".data) := by decide
example : parse_clinical_significance demoClnsigMapping (some ("99".data))
    = ("Unknown".data) := by decide
example : parse_clinical_significance demoClnsigMapping (some ("benign".data))
    = ("benign".data) := by decide
example : parse_clinical_significance demoClnsigMapping none
    = ("Unknown".data) := by decide

lemma takeWhile_of_not_contains (s : Str) (h : s.contains '|' = false) :
    s.takeWhile (fun c => c != '|') = s := by
  induction s with
  | nil => rfl
  | cons c rest ih =>
    simp only [List.contains_cons, Bool.or_eq_false_iff] at h
    have hc : (fun c : Char => c != '|') c = true := by
      simp only [bne_iff_ne, ne_eq]
      intro hcc
      subst hcc
      simp at h
    rw [List.takeWhile_cons, if_pos hc, ih h.2]

/-- C5 (counterexample to the claim as stated): the empty string is a
present (non-absent) input with no pipe whose segment does not parse as an
integer, so the claim requires it back unchanged; but the Python falsiness
test `if not clnsig_str` also catches the empty string, and the function
returns `"Unknown"` instead. -/
theorem parse_clnsig_empty_cex :
    parse_clinical_significance demoClnsigMapping (some []) = ("Unknown".data) ∧
      pyInt? ([] : Str) = none ∧ ([] : Str) ≠ ("Unknown".data) := by
  decide

/-- C5 (amended): the classifier returns `"Unknown"` when the input is
absent **or empty**; otherwise only the first pipe-delimited segment is
used; a segment that parses as an integer is mapped through the configured
code table, with unmapped integers yielding `"Unknown"`; a non-empty
segment that does not parse as an integer is returned unchanged. -/
theorem parse_clnsig_spec (mapping : List (Int × Str)) (s : Str) :
    parse_clinical_significance mapping none = ("Unknown".data) ∧
    parse_clinical_significance mapping (some []) = ("Unknown".data) ∧
    (s ≠ [] →
      parse_clinical_significance mapping (some s) =
        match pyInt? (s.takeWhile (fun c => c != '|')) with
        | some n => dictGet mapping n ("Unknown".data)
        | none => s.takeWhile (fun c => c != '|')) := by
  refine ⟨rfl, rfl, ?_⟩
  intro hs
  show (if s = [] then ("Unknown".data) else _) = _
  rw [if_neg hs]
  by_cases hc : s.contains '|' = true
  · simp only [hc, if_true]
  · have hc' : s.contains '|' = false := by
      cases hcb : s.contains '|'
      · rfl
      · exact absurd hcb hc
    simp only [hc', Bool.false_eq_true, if_false, takeWhile_of_not_contains s hc']

/-- Witness for C5: the pipe-joined value `5|2` is classified using only its
first segment, yielding `"Pathogenic"` under the example code table. -/
theorem parse_clnsig_witness :
    parse_clinical_significance demoClnsigMapping (some ("5|2".data))
      = ("Pathogenic".data) :=
  ((parse_clnsig_spec demoClnsigMapping ("5|2".data)).2.2 (by decide)).trans
    (by decide)

/-- Model of `VCFTransformer._extract_gene_info(info_str)`: look up `GENEINFO`
(format `GENE_SYMBOL:GENE_ID`), split it on `:`; two or more parts give
(symbol, id), exactly one part gives (symbol, absent), and a falsy lookup
gives (absent, absent). -/
def extract_gene_info (info_str : Str) : Option Str × Option Str :=
  match parse_info_field info_str ("GENEINFO".data) with
  | none => (none, none)
  | some g =>
    if g = [] then (none, none)
    else
      let parts := splitOnChar ':' g
      if 2 ≤ parts.length then (some (parts.getD 0 []), some (parts.getD 1 []))
      else if parts.length = 1 then (some (parts.getD 0 []), none)
      else (none, none)

example : extract_gene_info ("GENEINFO=BRCA1:672;AF=0.01".data)
    = (some ("BRCA1".data), some ("672".data)) := by decide
example : extract_gene_info ("GENEINFO=BRCA1;AF=0.01".data)
    = (some ("BRCA1".data), none) := by decide
example : extract_gene_info ("AF=0.01".data) = (none, none) := by decide

/-- Python exceptions relevant to the modelled paths. -/
inductive PyError
  | valueError
  | fileNotFound
deriving DecidableEq

/-- The variant record built by `parse_vcf_simple` for one data line.
`position`, `allele_count` and `total_alleles` hold the values of
`int(...)`; `allele_frequency` holds the numeral accepted by `float(...)`
(the IEEE value itself is never needed by the verified properties). -/
structure Variant where
  chromosome : Str
  position : Int
  variant_id : Option Str
  reference_allele : Str
  alternate_allele : Str
  quality : Option Str
  filter_status : Str
  allele_frequency : Option Str
  allele_count : Option Int
  total_alleles : Option Int
  clinical_significance : Str
  disease_name : Option Str
  gene_symbol : Option Str
  gene_id : Option Str
  info_raw : Str
deriving DecidableEq

/-- Outcome of the body of the per-line loop of `parse_vcf_simple`: the line is
silently skipped, a variant is appended to the chunk buffer, or an uncaught
exception aborts the parse. -/
inductive LineOut
  | skipped
  | emitted (v : Variant)
  | raised (e : PyError)
deriving DecidableEq

def LineOut.isRaised : LineOut → Bool
  | .raised _ => true
  | _ => false

/-- Conversion result: a value, or an uncaught exception. -/
inductive Conv (α : Type)
  | ok (a : α)
  | err (e : PyError)
deriving DecidableEq

/-- Model of `float(x) if x else None`: `None` and the empty string give `None`; a
value `float` rejects raises `ValueError` (there is no `try` around it in
`parse_vcf_simple`). -/
def pyOptFloat (x : Option Str) : Conv (Option Str) :=
  match x with
  | none => .ok none
  | some v =>
    if v = [] then .ok none
    else if pyFloatAccepts v then .ok (some v) else .err .valueError

/-- Model of `int(x) if x else None`, likewise without any `try`. -/
def pyOptInt (x : Option Str) : Conv (Option Int) :=
  match x with
  | none => .ok none
  | some v =>
    if v = [] then .ok none
    else
      match pyInt? v with
      | some n => .ok (some n)
      | none => .err .valueError

/-- The field extraction and record construction of `parse_vcf_simple` for
an already-split line with at least 8 fields, in the evaluation order of
the Python code: `pos = int(parts[1])` first, then the record literal whose
numeric conversions run in order AF, AC, AN. -/
def parseFields (mapping : List (Int × Str)) (parts : List Str) : LineOut :=
  match pyInt? (parts.getD 1 []) with
  | none => .raised .valueError
  | some pos =>
    match pyOptFloat (parse_info_field (parts.getD 7 []) ("AF".data)) with
    | .err e => .raised e
    | .ok afv =>
      match pyOptInt (parse_info_field (parts.getD 7 []) ("AC".data)) with
      | .err e => .raised e
      | .ok acv =>
        match pyOptInt (parse_info_field (parts.getD 7 []) ("AN".data)) with
        | .err e => .raised e
        | .ok anv =>
          .emitted {
            chromosome := parts.getD 0 []
            position := pos
            variant_id :=
              if parts.getD 2 [] = (".".data) then none else some (parts.getD 2 [])
            reference_allele := parts.getD 3 []
            alternate_allele := parts.getD 4 []
            quality :=
              if parts.getD 5 [] = (".".data) then none else some (parts.getD 5 [])
            filter_status := parts.getD 6 []
            allele_frequency := afv
            allele_count := acv
            total_alleles := anv
            clinical_significance :=
              parse_clinical_significance mapping
                (parse_info_field (parts.getD 7 []) ("CLNSIG".data))
            disease_name := parse_info_field (parts.getD 7 []) ("CLNDN".data)
            gene_symbol := (extract_gene_info (parts.getD 7 [])).1
            gene_id := (extract_gene_info (parts.getD 7 [])).2
            info_raw := parts.getD 7 [] }

/-- One iteration of the main loop of `parse_vcf_simple`: skip `#` lines,
`line.strip().split('\t')`, skip lines with fewer than 8 fields, otherwise
build the record. -/
def parseDataLine (mapping : List (Int × Str)) (line : Str) : LineOut :=
  if pyStartswith line (['#']) then .skipped
  else if (splitOnChar '\t' (pyStrip line)).length < 8 then .skipped
  else parseFields mapping (splitOnChar '\t' (pyStrip line))

/-- The header-skipping loop of `parse_vcf_simple`: it iterates the file,
`break`ing on the `#CHROM` column-header line or on the first line that
does not start with `#` — and `break` has already consumed that line, so
parsing proceeds with the lines after it. -/
def skipHeader : List Str → List Str
  | [] => []
  | l :: rest =>
    if pyStartswith l ("#CHROM".data) then rest
    else if pyStartswith l (['#']) then skipHeader rest
    else rest

/-- Result of running the parsing loop: the accumulated records, or an
uncaught exception that aborts the whole parse. -/
inductive PResult
  | ok (vs : List Variant)
  | raised (e : PyError)
deriving DecidableEq

/-- The main loop of `parse_vcf_simple` over the lines after the header
scan (`max_rows=None`); any raised exception propagates and discards the
whole run. -/
def processLines (mapping : List (Int × Str)) : List Str → PResult
  | [] => .ok []
  | l :: rest =>
    match parseDataLine mapping l with
    | .skipped => processLines mapping rest
    | .raised e => .raised e
    | .emitted v =>
      match processLines mapping rest with
      | .ok vs => .ok (v :: vs)
      | .raised e => .raised e

/-- The line-level behaviour of `parse_vcf_simple` on a whole file, given as the
list of its lines. -/
def parse_vcf_lines (mapping : List (Int × Str)) (lines : List Str) : PResult :=
  processLines mapping (skipHeader lines)

/-- Spec-side count: the data lines of a file — lines not starting with
`#` that have at least 8 tab-separated fields after stripping. -/
def dataLineCount (lines : List Str) : Nat :=
  (lines.filter (fun l =>
    !pyStartswith l (['#']) &&
      decide (8 ≤ (splitOnChar '\t' (pyStrip l)).length))).length

/-- A well-formed 8-field data line whose INFO value for `AF` is not
numeric. -/
def badAFLine : Str := ("1\t100\trs1\tA\tG\t50\tPASS\tAF=abc".data)

/-- C2: in `parse_vcf_simple` the conversions `float(af)` / `int(ac)` /
`int(an)` are not wrapped in any `try`, so a non-numeric `AF` on a
well-formed 8-field line raises `ValueError` and aborts the whole parse;
no record is emitted for the line (the claim — and the failure semantics
stated in the spec — instead demand the record with only that field
absent). -/
theorem nonnumeric_af_aborts_parse :
    (splitOnChar '\t' (pyStrip badAFLine)).length = 8 ∧
      parseDataLine demoClnsigMapping badAFLine = .raised .valueError ∧
      processLines demoClnsigMapping [badAFLine] = .raised .valueError := by
  decide

lemma parseFields_not_skipped (mapping : List (Int × Str)) (parts : List Str) :
    parseFields mapping parts ≠ .skipped := by
  unfold parseFields
  repeat' split
  all_goals simp

lemma dataLineCount_cons (l : Str) (rest : List Str) :
    dataLineCount (l :: rest) =
      (if (!pyStartswith l (['#']) &&
            decide (8 ≤ (splitOnChar '\t' (pyStrip l)).length)) = true
        then 1 else 0) + dataLineCount rest := by
  unfold dataLineCount
  rw [List.filter_cons]
  split
  · simp [Nat.add_comm]
  · simp

lemma processLines_count (mapping : List (Int × Str)) (ls : List Str)
    (h : ∀ l ∈ ls, (parseDataLine mapping l).isRaised = false) :
    ∃ vs, processLines mapping ls = .ok vs ∧ vs.length = dataLineCount ls := by
  induction ls with
  | nil => exact ⟨[], rfl, rfl⟩
  | cons l rest ih =>
    obtain ⟨vs, hvs, hlen⟩ := ih (fun x hx => h x (List.mem_cons_of_mem l hx))
    have hl := h l (List.mem_cons_self l rest)
    rcases hout : parseDataLine mapping l with _ | v | e
    · -- skipped: the line is a `#` line or has fewer than 8 fields
      have hnotdata :
          (!pyStartswith l (['#']) &&
            decide (8 ≤ (splitOnChar '\t' (pyStrip l)).length)) = false := by
        by_cases h1 : pyStartswith l (['#']) = true
        · simp [h1]
        · have h1' : pyStartswith l (['#']) = false := by
            cases hb : pyStartswith l (['#'])
            · rfl
            · exact absurd hb h1
          by_cases h2 : (splitOnChar '\t' (pyStrip l)).length < 8
          · simp [h1', Nat.not_le_of_lt h2]
          · exfalso
            have : parseDataLine mapping l
                = parseFields mapping (splitOnChar '\t' (pyStrip l)) := by
              unfold parseDataLine
              rw [if_neg (by simp [h1']), if_neg h2]
            rw [hout] at this
            exact parseFields_not_skipped mapping _ this.symm
      refine ⟨vs, ?_, ?_⟩
      · simp only [processLines, hout]
        exact hvs
      · rw [dataLineCount_cons, hnotdata]
        simpa using hlen
    · -- emitted: the line is counted
      have h1 : pyStartswith l (['#']) = false := by
        cases hb : pyStartswith l (['#'])
        · rfl
        · exfalso
          have : parseDataLine mapping l = .skipped := by
            unfold parseDataLine
            rw [if_pos hb]
          rw [hout] at this
          exact LineOut.noConfusion this
      have h2 : ¬ (splitOnChar '\t' (pyStrip l)).length < 8 := by
        intro h2
        have : parseDataLine mapping l = .skipped := by
          unfold parseDataLine
          rw [if_neg (by simp [h1]), if_pos h2]
        rw [hout] at this
        exact LineOut.noConfusion this
      have hdata :
          (!pyStartswith l (['#']) &&
            decide (8 ≤ (splitOnChar '\t' (pyStrip l)).length)) = true := by
        simp [h1, Nat.le_of_not_lt h2]
      refine ⟨v :: vs, ?_, ?_⟩
      · simp only [processLines, hout, hvs]
      · rw [dataLineCount_cons, hdata]
        simp [hlen, Nat.add_comm]
    · rw [hout] at hl
      exact absurd hl (by simp [LineOut.isRaised])

/-- C3 (amended): provided no line after the header scan raises a
field-conversion error, the parser emits exactly one record per data line
(a non-`#` line with at least 8 tab-separated fields) among the lines that
follow the header scan, and silently drops shorter lines; the emitted
count equals the number of such data lines.  The header scan consumes
every line up to and including the `#CHROM` column-header line or the
first non-comment line, so when no column-header line is present the first
data line is consumed by the scan and never emitted. -/
theorem parse_vcf_line_accounting (mapping : List (Int × Str)) (lines : List Str)
    (h : ∀ l ∈ skipHeader lines, (parseDataLine mapping l).isRaised = false) :
    ∃ vs, parse_vcf_lines mapping lines = .ok vs ∧
      vs.length = dataLineCount (skipHeader lines) :=
  processLines_count mapping (skipHeader lines) h

/-- A well-formed 8-field data line, used as a file with no column-header
line. -/
def headerlessLine : Str := ("1\t100\trs1\tA\tG\t50\tPASS\tAF=0.5".data)

/-- C3 (counterexample to the claim as stated): a file consisting of a
single well-formed 8-field data line and no `#CHROM` header emits zero
records, not one — the header scan `break`s on the first non-comment line
after already consuming it. -/
theorem first_data_line_lost_cex :
    dataLineCount [headerlessLine] = 1 ∧
      parse_vcf_lines demoClnsigMapping [headerlessLine] = .ok [] := by
  decide

/-- A small well-formed file: meta line, column-header line, two good data
lines and one 5-field line. -/
def demoFile : List Str :=
  [("##fileformat=VCFv4.1".data),
   ("#CHROM\tPOS\tID\tREF\tALT\tQUAL\tFILTER\tINFO".data),
   ("1\t100\trs1\tA\tG\t50\tPASS\tAF=0.5;GENEINFO=BRCA1:672".data),
   ("2\t200\t.\tC\tT".data),
   ("3\t300\trs3\tG\tA\t.\tPASS\tAC=2;AN=1000;CLNSIG=5".data)]

/-- Witness for C3: the amended theorem instantiated on `demoFile`. -/
theorem parse_vcf_line_accounting_witness :
    ∃ vs, parse_vcf_lines demoClnsigMapping demoFile = .ok vs ∧
      vs.length = dataLineCount (skipHeader demoFile) :=
  parse_vcf_line_accounting demoClnsigMapping demoFile (by decide)

/-- State of the chunked staging-file writer in `parse_vcf_simple`:
the in-memory `chunk_buffer`, the rows appended to the temp CSV so far,
whether the temp file exists (it is deleted before the run and created by
the first append), how many header rows were written, the `first_chunk`
flag, and the running `total_variants` count. -/
structure WState where
  chunk_buffer : List Variant
  fileRows : List Variant
  fileCreated : Bool
  headerWrites : Nat
  first_chunk : Bool
  total_variants : Nat
deriving DecidableEq

/-- Model of `chunk_df.to_csv(temp_variants_csv, mode=a, header=first_chunk)` plus
the surrounding bookkeeping: append the buffer to the staging file
(creating it if needed), write a header row only when `first_chunk` is
set, add the buffer size to `total_variants`, clear the buffer and the
flag. -/
def flushChunk (st : WState) : WState :=
  { chunk_buffer := []
    fileRows := st.fileRows ++ st.chunk_buffer
    fileCreated := true
    headerWrites := st.headerWrites + (if st.first_chunk then 1 else 0)
    first_chunk := false
    total_variants := st.total_variants + st.chunk_buffer.length }

/-- One record of the main loop: append to `chunk_buffer`, and flush when
the buffer has reached `chunk_size` (`if len(chunk_buffer) >= self.chunk_size`). -/
def stepWrite (chunk_size : Nat) (st : WState) (v : Variant) : WState :=
  let st' := { st with chunk_buffer := st.chunk_buffer ++ [v] }
  if chunk_size ≤ st'.chunk_buffer.length then flushChunk st' else st'

def initW : WState :=
  { chunk_buffer := [], fileRows := [], fileCreated := false,
    headerWrites := 0, first_chunk := true, total_variants := 0 }

/-- The whole write phase of `parse_vcf_simple`: stream all records through
the chunk writer, then flush the remaining partial batch
(`if chunk_buffer:`). -/
def writeAll (chunk_size : Nat) (records : List Variant) : WState :=
  let st := records.foldl (stepWrite chunk_size) initW
  if st.chunk_buffer = [] then st else flushChunk st

/-- Model of `pd.read_csv(temp_variants_csv)`: the appended rows, or
`FileNotFoundError` when no append ever ran (the temp file is removed at
the start of the run and created only by the first append). -/
inductive ReadBack
  | rows (vs : List Variant)
  | raised (e : PyError)
deriving DecidableEq

def readStaging (st : WState) : ReadBack :=
  if st.fileCreated = true then .rows st.fileRows else .raised .fileNotFound

/-- Invariant of the chunk-writer state. -/
def WInv (st : WState) : Prop :=
  st.total_variants = st.fileRows.length ∧
  (st.fileCreated = true ↔ st.fileRows ≠ []) ∧
  st.headerWrites = (if st.fileCreated = true then 1 else 0) ∧
  st.first_chunk = !st.fileCreated

lemma flushChunk_inv (st : WState) (hbuf : st.chunk_buffer ≠ [])
    (hinv : WInv st) :
    WInv (flushChunk st) ∧
      (flushChunk st).fileRows = st.fileRows ++ st.chunk_buffer ∧
      (flushChunk st).chunk_buffer = [] := by
  obtain ⟨h1, h2, h3, h4⟩ := hinv
  refine ⟨⟨?_, ?_, ?_, ?_⟩, rfl, rfl⟩
  · show st.total_variants + st.chunk_buffer.length
      = (st.fileRows ++ st.chunk_buffer).length
    rw [List.length_append, h1]
  · show (true = true) ↔ st.fileRows ++ st.chunk_buffer ≠ []
    simp [hbuf]
  · show st.headerWrites + (if st.first_chunk then 1 else 0) = 1
    rw [h3, h4]
    cases hc : st.fileCreated <;> simp
  · rfl

lemma foldl_stepWrite (chunk_size : Nat) (records : List Variant) :
    ∀ st : WState, WInv st →
      WInv (records.foldl (stepWrite chunk_size) st) ∧
      (records.foldl (stepWrite chunk_size) st).fileRows ++
          (records.foldl (stepWrite chunk_size) st).chunk_buffer
        = st.fileRows ++ st.chunk_buffer ++ records := by
  induction records with
  | nil => intro st h; exact ⟨h, by simp⟩
  | cons v rest ih =>
    intro st h
    have hstep : WInv (stepWrite chunk_size st v) ∧
        (stepWrite chunk_size st v).fileRows ++
            (stepWrite chunk_size st v).chunk_buffer
          = st.fileRows ++ (st.chunk_buffer ++ [v]) := by
      unfold stepWrite
      by_cases hc : chunk_size ≤ st.chunk_buffer.length + 1
      · have hbuf : ({ st with chunk_buffer := st.chunk_buffer ++ [v] } :
            WState).chunk_buffer ≠ [] := by simp
        have hinv' : WInv { st with chunk_buffer := st.chunk_buffer ++ [v] } := h
        obtain ⟨hi, hr, hb⟩ :=
          flushChunk_inv { st with chunk_buffer := st.chunk_buffer ++ [v] } hbuf hinv'
        rw [if_pos (by simpa using hc)]
        exact ⟨hi, by rw [hr, hb]; simp⟩
      · rw [if_neg (by simpa using hc)]
        exact ⟨h, rfl⟩
    obtain ⟨h1, h2⟩ := ih (stepWrite chunk_size st v) hstep.1
    rw [List.foldl_cons]
    refine ⟨h1, ?_⟩
    rw [h2, hstep.2]
    simp

lemma writeAll_spec (chunk_size : Nat) (records : List Variant) :
    (writeAll chunk_size records).fileRows = records ∧
    (writeAll chunk_size records).chunk_buffer = [] ∧
    (writeAll chunk_size records).total_variants = records.length ∧
    ((writeAll chunk_size records).fileCreated = true ↔ records ≠ []) ∧
    (writeAll chunk_size records).headerWrites
      = (if records = [] then 0 else 1) := by
  have h0 : WInv initW := ⟨rfl, by simp [initW], rfl, rfl⟩
  obtain ⟨hinv, hconcat⟩ := foldl_stepWrite chunk_size records initW h0
  unfold writeAll
  by_cases hb : (records.foldl (stepWrite chunk_size) initW).chunk_buffer = []
  · rw [if_pos hb]
    rw [hb, List.append_nil] at hconcat
    rw [show initW.fileRows = ([] : List Variant) from rfl,
      show initW.chunk_buffer = ([] : List Variant) from rfl,
      List.nil_append, List.nil_append] at hconcat
    obtain ⟨h1, h2, h3, h4⟩ := hinv
    rw [hconcat] at h1 h2
    refine ⟨hconcat, hb, h1, h2, ?_⟩
    rw [h3]
    by_cases hr : records = []
    · rw [if_pos hr]
      have : (records.foldl (stepWrite chunk_size) initW).fileCreated = false := by
        cases hc : (records.foldl (stepWrite chunk_size) initW).fileCreated
        · rfl
        · exact absurd (h2.mp hc) (by simp [hr])
      rw [this]
      simp
    · rw [if_neg hr, if_pos (h2.mpr hr)]
  · rw [if_neg hb]
    obtain ⟨hi, hr, hbempty⟩ :=
      flushChunk_inv (records.foldl (stepWrite chunk_size) initW) hb hinv
    rw [show initW.fileRows = ([] : List Variant) from rfl,
      show initW.chunk_buffer = ([] : List Variant) from rfl,
      List.nil_append, List.nil_append] at hconcat
    rw [hr, hconcat]
    have hne : records ≠ [] := by
      intro he
      exact hb (List.append_eq_nil.mp (hconcat.trans he)).2
    obtain ⟨h1, h2, h3, h4⟩ := hi
    rw [hr, hconcat] at h1 h2
    refine ⟨rfl, hbempty, h1, h2, ?_⟩
    rw [h3, if_pos (h2.mpr hne), if_neg hne]

/-- What `parse_vcf_simple` returns after the write loop: the
staging-sentinel DataFrame (record count + staging path), the fully
materialized record set, or an uncaught exception. -/
inductive ParseReturn
  | staged (total_variants : Nat) (variants_csv : Str)
  | materialized (vs : List Variant)
  | raised (e : PyError)
deriving DecidableEq

/-- The tail of `parse_vcf_simple`: when `total_variants > 1000000` the
temp file is renamed (`shutil.move`) to the final CSV and a sentinel is
returned without re-reading the staging file; otherwise the temp file is
read back fully (`pd.read_csv`), removed (`os.remove`), and the records
are returned.  The second component records whether the temporary staging
file still exists afterwards. -/
def finalizeParse (variants_csv : Str) (st : WState) : ParseReturn × Bool :=
  if 1000000 < st.total_variants then
    (.staged st.total_variants variants_csv, false)
  else
    match readStaging st with
    | .raised e => (.raised e, st.fileCreated)
    | .rows vs => (.materialized vs, false)

/-- C8 (amended, at least one record): writing `N ≥ 1` records through the
chunk writer with any batch size appends them to the staging file in the
original order, writes the header row exactly once (on the first batch),
counts `total_variants = N`, and the small-input read-back returns exactly
the written records. -/
theorem staging_roundtrip (chunk_size : Nat) (records : List Variant)
    (h : records ≠ []) :
    readStaging (writeAll chunk_size records) = .rows records ∧
      (writeAll chunk_size records).headerWrites = 1 ∧
      (writeAll chunk_size records).total_variants = records.length := by
  obtain ⟨h1, h2, h3, h4, h5⟩ := writeAll_spec chunk_size records
  refine ⟨?_, ?_, h3⟩
  · unfold readStaging
    rw [if_pos (h4.mpr h), h1]
  · rw [h5, if_neg h]

/-- C8 (counterexample, zero records): with no records nothing is ever
appended, so the staging file is never created, and the small-input
read-back raises `FileNotFoundError` instead of yielding zero records. -/
theorem staging_roundtrip_zero_cex :
    readStaging (writeAll 2 ([] : List Variant)) = .raised .fileNotFound := by
  decide

/-- A concrete variant record used by witnesses. -/
def sampleVariant (n : Int) : Variant :=
  { chromosome := ("1".data), position := n, variant_id := none,
    reference_allele := ("A".data), alternate_allele := ("G".data),
    quality := none, filter_status := ("PASS".data), allele_frequency := none,
    allele_count := none, total_alleles := none,
    clinical_significance := ("Unknown".data), disease_name := none,
    gene_symbol := none, gene_id := none, info_raw := [] }

/-- Witness for C8: three records written in batches of two. -/
theorem staging_roundtrip_witness :
    readStaging (writeAll 2 [sampleVariant 1, sampleVariant 2, sampleVariant 3])
        = .rows [sampleVariant 1, sampleVariant 2, sampleVariant 3] ∧
      (writeAll 2 [sampleVariant 1, sampleVariant 2, sampleVariant 3]).headerWrites
        = 1 ∧
      (writeAll 2 [sampleVariant 1, sampleVariant 2, sampleVariant 3]).total_variants
        = [sampleVariant 1, sampleVariant 2, sampleVariant 3].length :=
  staging_roundtrip 2 _ (by decide)

/-- C7 (amended): above the 1,000,000-record threshold the parser returns
the staging sentinel (count + path) without re-reading the staging file,
which has been renamed to its final location; for a positive count at or
below the threshold it returns the fully materialized records and the
temporary staging file no longer exists afterwards.  (At count zero the
read-back step instead raises, see the counterexample.) -/
theorem large_dataset_policy (chunk_size : Nat) (path : Str)
    (records : List Variant) :
    (1000000 < records.length →
      finalizeParse path (writeAll chunk_size records)
        = (.staged records.length path, false)) ∧
    (0 < records.length → records.length ≤ 1000000 →
      finalizeParse path (writeAll chunk_size records)
        = (.materialized records, false)) := by
  obtain ⟨h1, h2, h3, h4, h5⟩ := writeAll_spec chunk_size records
  constructor
  · intro hbig
    unfold finalizeParse
    simp only [h3]
    rw [if_pos hbig]
  · intro hpos hle
    unfold finalizeParse
    simp only [h3]
    rw [if_neg (Nat.not_lt.mpr hle)]
    have hne : records ≠ [] := by
      intro he
      rw [he] at hpos
      exact absurd hpos (by simp)
    unfold readStaging
    rw [if_pos (h4.mpr hne), h1]

/-- C7 (counterexample, count zero): zero records are at or below the
threshold, yet the small-input path does not return a materialized record
set — reading the never-created temp file raises `FileNotFoundError`. -/
theorem large_dataset_zero_cex :
    finalizeParse ("variants.csv".data) (writeAll 2 ([] : List Variant))
      = (.raised .fileNotFound, false) := by
  decide

/-- Witness for C7: both branches of the amended theorem, at 1,000,001 and
at 1 record. -/
theorem large_dataset_policy_witness :
    finalizeParse ("variants.csv".data)
        (writeAll 1000 (List.replicate 1000001 (sampleVariant 1)))
      = (.staged 1000001 ("variants.csv".data), false) ∧
    finalizeParse ("variants.csv".data) (writeAll 1000 [sampleVariant 1])
      = (.materialized [sampleVariant 1], false) := by
  constructor
  · have h := (large_dataset_policy 1000 ("variants.csv".data)
      (List.replicate 1000001 (sampleVariant 1))).1
      (by rw [List.length_replicate]; norm_num)
    rw [List.length_replicate] at h
    exact h
  · exact (large_dataset_policy 1000 ("variants.csv".data) [sampleVariant 1]).2
      (by decide) (by decide)

/-- A gene record derived from the variant stream. -/
structure Gene where
  gene_symbol : Str
  gene_id : Option Str
  chromosome : Str
deriving DecidableEq

/-- Selecting the three gene columns of a variant row; `none` when the
gene symbol of the row is null (such rows are filtered out by `notna` on both
paths of `extract_genes`). -/
def geneRowOf (v : Variant) : Option Gene :=
  v.gene_symbol.map (fun s =>
    { gene_symbol := s, gene_id := v.gene_id, chromosome := v.chromosome })

/-- The gene rows of a variant stream, nulls removed, in stream order. -/
def geneStream (vs : List Variant) : List Gene :=
  vs.filterMap geneRowOf

/-- First-occurrence deduplication by key with an explicit seen-set, the
shape shared by pandas drop_duplicates on the gene_symbol column (which
keeps the first row per key) and the `unique_genes` seen-set of the large
path. -/
def dedupByKeyAux {α β : Type} [DecidableEq β] (k : α → β) (seen : List β) :
    List α → List α
  | [] => []
  | x :: xs =>
    if k x ∈ seen then dedupByKeyAux k seen xs
    else x :: dedupByKeyAux k (k x :: seen) xs

/-- Small-input path of `VCFTransformer.extract_genes`: select the gene
columns, filter out null gene symbols, drop duplicate symbols keeping the
first occurrence. -/
def extract_genes_small (vs : List Variant) : List Gene :=
  dedupByKeyAux Gene.gene_symbol [] (geneStream vs)

/-- One row of the large-input path of `extract_genes`: null symbols are
skipped; a symbol already in `unique_genes` is ignored; otherwise the
symbol joins the seen set and the record (with the gene id and
chromosome of that row) is appended to `gene_data` in insertion order. -/
def largeStep (st : List Gene × List Str) (v : Variant) : List Gene × List Str :=
  match v.gene_symbol with
  | none => st
  | some s =>
    if s ∈ st.2 then st
    else (st.1 ++ [{ gene_symbol := s, gene_id := v.gene_id,
                     chromosome := v.chromosome }], s :: st.2)

/-- Large-input path of `extract_genes`: re-stream the staged rows in
chunks (`pd.read_csv(..., chunksize=100000)` preserves row order), folding
each chunk through the seen-set accumulator. -/
def extract_genes_large (chunks : List (List Variant)) : List Gene :=
  (chunks.foldl (fun st chunk => chunk.foldl largeStep st) ([], [])).1

lemma foldl_chunks (chunks : List (List Variant)) :
    ∀ st, chunks.foldl (fun st chunk => chunk.foldl largeStep st) st
      = chunks.flatten.foldl largeStep st := by
  induction chunks with
  | nil => intro st; rfl
  | cons c cs ih =>
    intro st
    rw [List.foldl_cons, List.flatten_cons, List.foldl_append, ih]

lemma foldl_largeStep (vs : List Variant) :
    ∀ (acc : List Gene) (seen : List Str),
      (vs.foldl largeStep (acc, seen)).1
        = acc ++ dedupByKeyAux Gene.gene_symbol seen (geneStream vs) := by
  induction vs with
  | nil => intro acc seen; simp [geneStream, dedupByKeyAux]
  | cons v rest ih =>
    intro acc seen
    rw [List.foldl_cons]
    cases hs : v.gene_symbol with
    | none =>
      have h1 : largeStep (acc, seen) v = (acc, seen) := by
        simp [largeStep, hs]
      have h2 : geneStream (v :: rest) = geneStream rest := by
        simp [geneStream, List.filterMap_cons, geneRowOf, hs]
      rw [h1, h2, ih]
    | some s =>
      have h2 : geneStream (v :: rest)
          = { gene_symbol := s, gene_id := v.gene_id,
              chromosome := v.chromosome } :: geneStream rest := by
        simp [geneStream, List.filterMap_cons, geneRowOf, hs]
      by_cases hmem : s ∈ seen
      · have h1 : largeStep (acc, seen) v = (acc, seen) := by
          simp [largeStep, hs, hmem]
        rw [h1, h2, ih]
        simp [dedupByKeyAux, hmem]
      · have h1 : largeStep (acc, seen) v
            = (acc ++ [{ gene_symbol := s, gene_id := v.gene_id,
                         chromosome := v.chromosome }], s :: seen) := by
          simp [largeStep, hs, hmem]
        rw [h1, h2, ih]
        simp [dedupByKeyAux, hmem]

lemma dedupByKeyAux_find {α β : Type} [DecidableEq β] (k : α → β) :
    ∀ (l : List α) (seen : List β) (x : α), x ∈ dedupByKeyAux k seen l →
      k x ∉ seen ∧ l.find? (fun y => decide (k y = k x)) = some x := by
  intro l
  induction l with
  | nil => intro seen x hx; exact absurd hx (by simp [dedupByKeyAux])
  | cons y ys ih =>
    intro seen x hx
    by_cases hm : k y ∈ seen
    · rw [show dedupByKeyAux k seen (y :: ys) = dedupByKeyAux k seen ys by
        simp [dedupByKeyAux, hm]] at hx
      obtain ⟨hns, hfind⟩ := ih seen x hx
      have hne : k y ≠ k x := fun he => hns (he ▸ hm)
      refine ⟨hns, ?_⟩
      rw [List.find?_cons, decide_eq_false hne]
      exact hfind
    · rw [show dedupByKeyAux k seen (y :: ys)
          = y :: dedupByKeyAux k (k y :: seen) ys by
        simp [dedupByKeyAux, hm]] at hx
      rcases List.mem_cons.mp hx with he | ht
      · subst he
        refine ⟨hm, ?_⟩
        rw [List.find?_cons, decide_eq_true rfl]
      · obtain ⟨hns, hfind⟩ := ih (k y :: seen) x ht
        have hnx : k x ∉ seen := fun hh => hns (List.mem_cons_of_mem _ hh)
        have hne : k y ≠ k x := by
          intro he
          exact hns (he ▸ List.mem_cons_self _ _)
        refine ⟨hnx, ?_⟩
        rw [List.find?_cons, decide_eq_false hne]
        exact hfind

lemma dedupByKeyAux_nodup {α β : Type} [DecidableEq β] (k : α → β) :
    ∀ (l : List α) (seen : List β),
      ((dedupByKeyAux k seen l).map k).Nodup := by
  intro l
  induction l with
  | nil => intro seen; simp [dedupByKeyAux]
  | cons y ys ih =>
    intro seen
    by_cases hm : k y ∈ seen
    · rw [show dedupByKeyAux k seen (y :: ys) = dedupByKeyAux k seen ys by
        simp [dedupByKeyAux, hm]]
      exact ih seen
    · rw [show dedupByKeyAux k seen (y :: ys)
          = y :: dedupByKeyAux k (k y :: seen) ys by
        simp [dedupByKeyAux, hm]]
      rw [List.map_cons, List.nodup_cons]
      refine ⟨?_, ih (k y :: seen)⟩
      intro hmem
      obtain ⟨x, hx, hkx⟩ := List.mem_map.mp hmem
      have := (dedupByKeyAux_find k ys (k y :: seen) x hx).1
      exact this (hkx ▸ List.mem_cons_self _ _)

lemma dedupByKeyAux_key_iff {α β : Type} [DecidableEq β] (k : α → β) :
    ∀ (l : List α) (seen : List β) (b : β),
      (∃ x ∈ dedupByKeyAux k seen l, k x = b) ↔
        (b ∉ seen ∧ ∃ x ∈ l, k x = b) := by
  intro l
  induction l with
  | nil => intro seen b; simp [dedupByKeyAux]
  | cons y ys ih =>
    intro seen b
    by_cases hm : k y ∈ seen
    · rw [show dedupByKeyAux k seen (y :: ys) = dedupByKeyAux k seen ys by
        simp [dedupByKeyAux, hm]]
      rw [ih seen b]
      constructor
      · rintro ⟨hns, x, hx, hkx⟩
        exact ⟨hns, x, List.mem_cons_of_mem _ hx, hkx⟩
      · rintro ⟨hns, x, hx, hkx⟩
        rcases List.mem_cons.mp hx with he | ht
        · subst he
          exact absurd (hkx ▸ hm) hns
        · exact ⟨hns, x, ht, hkx⟩
    · rw [show dedupByKeyAux k seen (y :: ys)
          = y :: dedupByKeyAux k (k y :: seen) ys by
        simp [dedupByKeyAux, hm]]
      constructor
      · rintro ⟨x, hx, hkx⟩
        rcases List.mem_cons.mp hx with he | ht
        · subst he
          exact ⟨hkx ▸ hm, x, List.mem_cons_self _ _, hkx⟩
        · obtain ⟨hns, x', hx', hkx'⟩ := (ih (k y :: seen) b).mp ⟨x, ht, hkx⟩
          exact ⟨fun hh => hns (List.mem_cons_of_mem _ hh), x',
            List.mem_cons_of_mem _ hx', hkx'⟩
      · rintro ⟨hns, x, hx, hkx⟩
        rcases List.mem_cons.mp hx with he | ht
        · subst he
          exact ⟨x, List.mem_cons_self _ _, hkx⟩
        · by_cases hby : b = k y
          · exact ⟨y, List.mem_cons_self _ _, hby.symm⟩
          · obtain ⟨x', hx', hkx'⟩ := (ih (k y :: seen) b).mpr
              ⟨by
                intro hh
                rcases List.mem_cons.mp hh with h1 | h2
                · exact hby h1
                · exact hns h2, x, ht, hkx⟩
            exact ⟨x', List.mem_cons_of_mem _ hx', hkx'⟩

lemma geneStream_symbol_mem (vs : List Variant) (s : Str) :
    (∃ g ∈ geneStream vs, g.gene_symbol = s)
      ↔ some s ∈ vs.map Variant.gene_symbol := by
  induction vs with
  | nil => simp [geneStream]
  | cons v rest ih =>
    cases hs : v.gene_symbol with
    | none =>
      rw [show geneStream (v :: rest) = geneStream rest by
        simp [geneStream, List.filterMap_cons, geneRowOf, hs]]
      rw [List.map_cons, hs, ih]
      simp
    | some t =>
      rw [show geneStream (v :: rest)
          = { gene_symbol := t, gene_id := v.gene_id,
              chromosome := v.chromosome } :: geneStream rest by
        simp [geneStream, List.filterMap_cons, geneRowOf, hs]]
      rw [List.map_cons, hs]
      constructor
      · rintro ⟨g, hg, hgs⟩
        rcases List.mem_cons.mp hg with he | ht
        · subst he
          have hts : t = s := hgs
          subst hts
          exact List.mem_cons_self _ _
        · exact List.mem_cons_of_mem _ (ih.mp ⟨g, ht, hgs⟩)
      · intro hmem
        rcases List.mem_cons.mp hmem with he | ht
        · exact ⟨{ gene_symbol := t, gene_id := v.gene_id,
                   chromosome := v.chromosome }, List.mem_cons_self _ _,
            (Option.some.injEq _ _ ▸ he.symm)⟩
        · obtain ⟨g, hg, hgs⟩ := ih.mpr ht
          exact ⟨g, List.mem_cons_of_mem _ hg, hgs⟩

/-- C6: on both paths of `extract_genes` — the in-memory path and the
staged-file batch path — deduplication yields exactly one gene record per
distinct non-null gene symbol (no symbol repeats in the output, and a
symbol appears in the output iff some variant of the stream carries it),
and every output record is the `find?`-first occurrence of its symbol in
the gene stream, so it carries the gene id and chromosome of that first
occurrence; moreover the batch path computes exactly the in-memory result
of the concatenated chunks. -/
theorem extract_genes_dedup (vs : List Variant) (chunks : List (List Variant)) :
    ((extract_genes_small vs).map Gene.gene_symbol).Nodup ∧
    (∀ s, (∃ g ∈ extract_genes_small vs, g.gene_symbol = s)
      ↔ some s ∈ vs.map Variant.gene_symbol) ∧
    (∀ g ∈ extract_genes_small vs,
      (geneStream vs).find? (fun y => decide (y.gene_symbol = g.gene_symbol))
        = some g) ∧
    extract_genes_large chunks = extract_genes_small chunks.flatten := by
  refine ⟨dedupByKeyAux_nodup Gene.gene_symbol (geneStream vs) [], ?_, ?_, ?_⟩
  · intro s
    rw [show extract_genes_small vs
        = dedupByKeyAux Gene.gene_symbol [] (geneStream vs) from rfl]
    rw [dedupByKeyAux_key_iff Gene.gene_symbol (geneStream vs) [] s]
    rw [geneStream_symbol_mem vs s]
    simp
  · intro g hg
    exact (dedupByKeyAux_find Gene.gene_symbol (geneStream vs) [] g hg).2
  · unfold extract_genes_large
    rw [foldl_chunks]
    rw [foldl_largeStep chunks.flatten [] []]
    rfl

/-- Variants sharing only the gene-related fields, used by the C6
witness (from the deduplication example in the spec). -/
def geneVariant (s : Str) (gid : Option Str) (chrom : Str) : Variant :=
  { chromosome := chrom, position := 0, variant_id := none,
    reference_allele := ("A".data), alternate_allele := ("G".data),
    quality := none, filter_status := ("PASS".data), allele_frequency := none,
    allele_count := none, total_alleles := none,
    clinical_significance := ("Unknown".data), disease_name := none,
    gene_symbol := some s, gene_id := gid, info_raw := [] }

def demoGeneVariants : List Variant :=
  [geneVariant ("BRCA1".data) (some ("672".data)) ("17".data),
   geneVariant ("BRCA1".data) (some ("999".data)) ("17".data),
   geneVariant ("TP53".data) (some ("7157".data)) ("17".data)]

/-- Witness for C6: in the example stream from the spec, the BRCA1 record kept by
deduplication is the first occurrence, with gene id `672` (not `999`). -/
theorem extract_genes_dedup_witness :
    (geneStream demoGeneVariants).find?
        (fun y => decide (y.gene_symbol =
          (Gene.mk ("BRCA1".data) (some ("672".data)) ("17".data)).gene_symbol))
      = some (Gene.mk ("BRCA1".data) (some ("672".data)) ("17".data)) :=
  (extract_genes_dedup demoGeneVariants []).2.2.1
    (Gene.mk ("BRCA1".data) (some ("672".data)) ("17".data)) (by decide)

/-- State of an input CSV file at load time. -/
inductive FileState (α : Type)
  | missing
  | emptyFile
  | rows (rs : List α)
deriving DecidableEq

/-- Result of `pd.read_csv(path)`: the rows, `EmptyDataError` for an empty
file, `FileNotFoundError` for a missing one. -/
inductive CsvRead (α : Type)
  | ok (rs : List α)
  | emptyDataError
  | fileNotFoundError
deriving DecidableEq

def pdReadCsv {α : Type} : FileState α → CsvRead α
  | .missing => .fileNotFoundError
  | .emptyFile => .emptyDataError
  | .rows rs => .ok rs

/-- Result of `collection.insert_many(documents, ordered=False)`.  A
document is modelled together with a flag marking whether the store
rejects it (e.g. a duplicate key under the unique index on gene symbol —
in reality a property of store state, abstracted per document here).  With
unordered writes all non-rejected documents are inserted; if any document
was rejected, `BulkWriteError` is raised carrying
the `nInserted` count of its `details`, the number that did succeed. -/
inductive InsertResult
  | okAll (n : Nat)
  | bulkWriteError (nInserted : Nat)
deriving DecidableEq

def insert_many {α : Type} (docs : List (α × Bool)) : InsertResult :=
  if (docs.filter (fun d => !d.2)).length = docs.length then .okAll docs.length
  else .bulkWriteError (docs.filter (fun d => !d.2)).length

/-- Outcome of `MongoDBLoader.load_genes`. -/
inductive GeneLoadOut
  | skippedEmptyFile
  | skippedNoRows
  | loaded (n : Nat)
  | raisedFileNotFound
deriving DecidableEq

/-- Model of `MongoDBLoader.load_genes`: `pd.read_csv` wrapped in a `try` that
catches **only** `pd.errors.EmptyDataError` (warn and return); a missing
file raises `FileNotFoundError`, which nothing catches; zero rows return
early; otherwise one unordered bulk insert whose `BulkWriteError` is
caught and reported with the `nInserted` count. -/
def load_genes (fs : FileState (Gene × Bool)) : GeneLoadOut :=
  match pdReadCsv fs with
  | .fileNotFoundError => .raisedFileNotFound
  | .emptyDataError => .skippedEmptyFile
  | .ok rs =>
    if rs.length = 0 then .skippedNoRows
    else
      match insert_many rs with
      | .okAll n => .loaded n
      | .bulkWriteError n => .loaded n

/-- Outcome of `MongoDBLoader.load_drug_annotations`. -/
inductive DrugLoadOut
  | skippedNotFound
  | skippedEmptyFile
  | skippedNoRows
  | loaded (n : Nat)
  | raisedFileNotFound
deriving DecidableEq

/-- Model of `MongoDBLoader.load_drug_annotations`: unlike `load_genes`, it first
checks `csv_path is None or not file_exists(csv_path)` and skips with a
warning; then the same empty-file / zero-rows / bulk-insert handling. -/
def load_drug_annotations {α : Type} (configured : Bool)
    (fs : FileState (α × Bool)) : DrugLoadOut :=
  if !configured || (match fs with | .missing => true | _ => false) then
    .skippedNotFound
  else
    match pdReadCsv fs with
    | .fileNotFoundError => .raisedFileNotFound
    | .emptyDataError => .skippedEmptyFile
    | .ok rs =>
      if rs.length = 0 then .skippedNoRows
      else
        match insert_many rs with
        | .okAll n => .loaded n
        | .bulkWriteError n => .loaded n

/-- C4 (counterexample to the claim as stated): a **missing** genes staging
file is fatal — `load_genes` only catches `EmptyDataError`, so
`pd.read_csv` raises an uncaught `FileNotFoundError` and the loading run
aborts instead of skipping with a warning. -/
theorem missing_genes_file_cex :
    load_genes .missing = .raisedFileNotFound ∧
      GeneLoadOut.raisedFileNotFound ≠ .skippedEmptyFile := by
  decide

/-- C4 (amended): an **empty** genes staging file is skipped with a warning
and the run continues (non-fatal), and a missing drug-annotations file is
likewise skipped with a warning; but a **missing** genes staging file
raises an uncaught `FileNotFoundError` (fatal). -/
theorem genes_file_handling :
    load_genes .emptyFile = .skippedEmptyFile ∧
      load_genes .missing = .raisedFileNotFound ∧
      @load_drug_annotations Gene true (FileState.missing) = .skippedNotFound ∧
      @load_drug_annotations Gene false (FileState.missing) = .skippedNotFound := by
  decide

/-- One chunk iteration of `MongoDBLoader.load_variants`: `if documents:`
guards the insert; on success the count of `inserted_ids` is added to the
running total, a `BulkWriteError` is caught and its `nInserted` added
instead, and the loop continues with the next chunk either way. -/
def processChunk {α : Type} (total : Nat) (docs : List (α × Bool)) : Nat :=
  if docs.length = 0 then total
  else
    match insert_many docs with
    | .okAll n => total + n
    | .bulkWriteError n => total + n

/-- Model of `MongoDBLoader.load_variants` over the chunk iterator of the staged
CSV: the reported total of loaded variants. -/
def load_variants {α : Type} (chunks : List (List (α × Bool))) : Nat :=
  chunks.foldl processChunk 0

lemma processChunk_eq {α : Type} (total : Nat) (docs : List (α × Bool)) :
    processChunk total docs = total + (docs.filter (fun d => !d.2)).length := by
  unfold processChunk
  by_cases h0 : docs.length = 0
  · rw [if_pos h0]
    rw [List.length_eq_zero.mp h0]
    simp
  · rw [if_neg h0]
    unfold insert_many
    by_cases hall : (docs.filter (fun d => !d.2)).length = docs.length
    · rw [if_pos hall, hall]
    · rw [if_neg hall]

lemma load_variants_sum {α : Type} (chunks : List (List (α × Bool))) :
    ∀ t, chunks.foldl processChunk t
      = t + (chunks.map (fun c => (c.filter (fun d => !d.2)).length)).sum := by
  induction chunks with
  | nil => intro t; simp
  | cons c cs ih =>
    intro t
    rw [List.foldl_cons, ih, processChunk_eq, List.map_cons, List.sum_cons,
      Nat.add_assoc]

/-- C10: the loader never aborts on a partial bulk-insert failure: for any
sequence of chunks, each with any set of store-rejected documents, the
reported total is the sum over **all** chunks of the number of documents
the store accepted — the batch whose insert raised `BulkWriteError`
contributes its recovered `nInserted`, and processing continues with the
following batches. -/
theorem bulk_insert_accounting {α : Type} (chunks : List (List (α × Bool))) :
    load_variants chunks
      = (chunks.map (fun c => (c.filter (fun d => !d.2)).length)).sum := by
  rw [show load_variants chunks = chunks.foldl processChunk 0 from rfl,
    load_variants_sum chunks 0, Nat.zero_add]

/-- Sanity: the example from the spec — one batch of 5 documents of which 1
violates the uniqueness constraint reports 4 inserted. -/
example :
    load_variants [[((1 : Nat), false), (2, false), (3, true), (4, false),
      (5, false)]] = 4 := by
  decide

/-- A variant document as the aggregation pipeline of
`create_mutation_summary` sees it: the grouping and counting fields.
(`avg_allele_frequency`, a server-side average of a nullable float, is not
modelled; the verified invariant concerns only the four counts.) -/
structure StoreVariant where
  chromosome : Str
  gene_symbol : Option Str
  clinical_significance : Str
deriving DecidableEq

/-- The `$match` stage: keep documents whose `gene_symbol` is non-null. -/
def matchStage (docs : List StoreVariant) : List StoreVariant :=
  docs.filter (fun d => decide (d.gene_symbol ≠ none))

/-- The `$group` key `(chromosome, gene_symbol, clinical_significance)`. -/
def keyOf (d : StoreVariant) : Str × Str × Str :=
  (d.chromosome, d.gene_symbol.getD [], d.clinical_significance)

/-- The Mongo operator in, against the array of the two pathogenic labels. -/
def isPathogenicLabel (s : Str) : Bool :=
  s == ("Pathogenic".data) || s == ("Likely pathogenic".data)

/-- The Mongo operator in, against the array of the two benign labels. -/
def isBenignLabel (s : Str) : Bool :=
  s == ("Benign".data) || s == ("Likely benign".data)

/-- The Mongo operator eq, against the drug-response label. -/
def isDrugLabel (s : Str) : Bool :=
  s == ("Drug response".data)

/-- One output document of the summary aggregation. -/
structure SummaryRow where
  chromosome : Str
  gene_symbol : Str
  clinical_significance : Str
  variant_count : Nat
  pathogenic_count : Nat
  benign_count : Nat
  drug_associated_count : Nat
deriving DecidableEq

/-- The `$group` accumulator outputs for one key: `variant_count` is
`$sum 1`, the three conditional counts are `$sum ($cond ...)` over the
documents of the group. -/
def summaryRow (docs : List StoreVariant) (k : Str × Str × Str) : SummaryRow :=
  { chromosome := k.1, gene_symbol := k.2.1, clinical_significance := k.2.2,
    variant_count := (docs.filter (fun d => decide (keyOf d = k))).length,
    pathogenic_count :=
      ((docs.filter (fun d => decide (keyOf d = k))).filter
        (fun d => isPathogenicLabel d.clinical_significance)).length,
    benign_count :=
      ((docs.filter (fun d => decide (keyOf d = k))).filter
        (fun d => isBenignLabel d.clinical_significance)).length,
    drug_associated_count :=
      ((docs.filter (fun d => decide (keyOf d = k))).filter
        (fun d => isDrugLabel d.clinical_significance)).length }

/-- The aggregation of `MongoDBLoader.create_mutation_summary` over the loaded
variant documents: filter out null gene symbols, group by the triple key,
one output row per distinct key. -/
def create_mutation_summary (docs : List StoreVariant) : List SummaryRow :=
  (dedupByKeyAux id [] ((matchStage docs).map keyOf)).map
    (summaryRow (matchStage docs))

lemma countP3_le {α : Type} (p q r : α → Bool) :
    ∀ l : List α,
      (∀ x ∈ l, ¬(p x = true ∧ q x = true) ∧ ¬(p x = true ∧ r x = true) ∧
        ¬(q x = true ∧ r x = true)) →
      (l.filter p).length + (l.filter q).length + (l.filter r).length
        ≤ l.length := by
  intro l
  induction l with
  | nil => intro _; simp
  | cons x xs ih =>
    intro h
    have hx := h x (List.mem_cons_self _ _)
    have hxs := ih (fun y hy => h y (List.mem_cons_of_mem _ hy))
    cases hp : p x <;> cases hq : q x <;> cases hr : r x
    case false.false.false => simp [List.filter_cons, hp, hq, hr]; omega
    case true.false.false => simp [List.filter_cons, hp, hq, hr]; omega
    case false.true.false => simp [List.filter_cons, hp, hq, hr]; omega
    case false.false.true => simp [List.filter_cons, hp, hq, hr]; omega
    case true.true.false => exact absurd ⟨hp, hq⟩ hx.1
    case true.false.true => exact absurd ⟨hp, hr⟩ hx.2.1
    case false.true.true => exact absurd ⟨hq, hr⟩ hx.2.2
    case true.true.true => exact absurd ⟨hp, hq⟩ hx.1

lemma labels_disjoint (s : Str) :
    ¬(isPathogenicLabel s = true ∧ isBenignLabel s = true) ∧
    ¬(isPathogenicLabel s = true ∧ isDrugLabel s = true) ∧
    ¬(isBenignLabel s = true ∧ isDrugLabel s = true) := by
  unfold isPathogenicLabel isBenignLabel isDrugLabel
  refine ⟨?_, ?_, ?_⟩
  · rintro ⟨h1, h2⟩
    simp only [Bool.or_eq_true, beq_iff_eq] at h1 h2
    rcases h1 with h1 | h1 <;> rcases h2 with h2 | h2 <;>
      (subst h1; exact absurd h2 (by decide))
  · rintro ⟨h1, h2⟩
    simp only [Bool.or_eq_true, beq_iff_eq] at h1 h2
    rcases h1 with h1 | h1 <;> (subst h1; exact absurd h2 (by decide))
  · rintro ⟨h1, h2⟩
    simp only [Bool.or_eq_true, beq_iff_eq] at h1 h2
    rcases h1 with h1 | h1 <;> (subst h1; exact absurd h2 (by decide))

/-- C9: every row of the mutation summary is keyed by a distinct
(chromosome, gene symbol, clinical significance) triple (no key repeats
across rows), and its counts — non-negative by construction, being list
lengths — satisfy
`pathogenic_count + benign_count + drug_associated_count ≤ variant_count`,
because the three label sets are pairwise disjoint. -/
theorem mutation_summary_invariant (docs : List StoreVariant) :
    ((create_mutation_summary docs).map
      (fun r => (r.chromosome, r.gene_symbol, r.clinical_significance))).Nodup ∧
    ∀ r ∈ create_mutation_summary docs,
      r.pathogenic_count + r.benign_count + r.drug_associated_count
        ≤ r.variant_count := by
  constructor
  · rw [show create_mutation_summary docs
        = (dedupByKeyAux id [] ((matchStage docs).map keyOf)).map
            (summaryRow (matchStage docs)) from rfl]
    rw [List.map_map]
    have hcomp : ((fun r : SummaryRow =>
        (r.chromosome, r.gene_symbol, r.clinical_significance)) ∘
          summaryRow (matchStage docs)) = id := by
      funext k
      rcases k with ⟨a, b, c⟩
      rfl
    rw [hcomp, List.map_id]
    have h := dedupByKeyAux_nodup (id : Str × Str × Str → Str × Str × Str)
      ((matchStage docs).map keyOf) []
    rw [List.map_id] at h
    exact h
  · intro r hr
    obtain ⟨k, hk, hkr⟩ := List.mem_map.mp hr
    subst hkr
    exact countP3_le _ _ _ _ (fun x _ => labels_disjoint x.clinical_significance)

/-- Variant documents for the C9 witness. -/
def demoStoreDocs : List StoreVariant :=
  [{ chromosome := ("17".data), gene_symbol := some ("BRCA1".data),
     clinical_significance := ("Pathogenic".data) },
   { chromosome := ("17".data), gene_symbol := some ("BRCA1".data),
     clinical_significance := ("Pathogenic".data) },
   { chromosome := ("13".data), gene_symbol := some ("BRCA2".data),
     clinical_significance := ("Benign".data) },
   { chromosome := ("1".data), gene_symbol := none,
     clinical_significance := ("Pathogenic".data) }]

def demoSummaryRow : SummaryRow :=
  { chromosome := ("17".data), gene_symbol := ("BRCA1".data),
    clinical_significance := ("Pathogenic".data), variant_count := 2,
    pathogenic_count := 2, benign_count := 0, drug_associated_count := 0 }

/-- Witness for C9: the invariant instantiated on a generated row. -/
theorem mutation_summary_invariant_witness :
    demoSummaryRow.pathogenic_count + demoSummaryRow.benign_count
        + demoSummaryRow.drug_associated_count
      ≤ demoSummaryRow.variant_count :=
  (mutation_summary_invariant demoStoreDocs).2 demoSummaryRow (by decide)
